import Mathlib

set_option maxRecDepth 40000

/-!
Shallow embedding of the CRM data-access core (modules/clientes.py,
modules/propiedades.py, modules/auth.py, api_service/app/repository.py).

Conventions of the embedding:
* Python scalar values that flow through the permissive dict-shaped
  records are modelled by the inductive `Val` below (`None`, `str`,
  `int`, `float`, `bool`, and date-like objects carrying their
  `isoformat()` string).  Python floats are modelled as rationals: every
  property verified here depends only on ordering/equality of numeric
  values, never on binary rounding.
* Python dicts used as records are association lists `List (String × Val)`
  with first-match lookup; the builders below never produce duplicate
  keys (mirroring dict semantics).
* A SQL table is a list of rows; a serial id column is modelled by a
  `nextId` counter.  `INSERT` appends, `UPDATE ... WHERE id=%s` maps over
  the rows, `DELETE ... WHERE id=%s` filters.
* bcrypt hashing/verification are external to the repository; functions
  that call them are parameterized by `hashF : String → String` and
  `verify : String → String → Bool`.
-/

namespace CRM

/-- Python scalar values occurring in the repository's records. -/
inductive Val where
  | vnone
  | vstr (s : String)
  | vint (n : Int)
  | vfloat (q : Rat)
  | vbool (b : Bool)
  | vdate (iso : String)
deriving Repr, DecidableEq

/-- Python `str(value)` on the scalars above. -/
def pyStr : Val → String
  | .vnone => "None"
  | .vstr s => s
  | .vint n => toString n
  | .vfloat q => toString q
  | .vbool b => if b then "True" else "False"
  | .vdate s => s

/-- Python truthiness `bool(value)` on the scalars above. -/
def pyTruthy : Val → Bool
  | .vnone => false
  | .vstr s => s ≠ ""
  | .vint n => n ≠ 0
  | .vfloat q => q ≠ 0
  | .vbool b => b
  | .vdate _ => true

/-- Python whitespace characters for `str.strip()`. -/
def wsChar (c : Char) : Bool :=
  c.toNat = 32 ∨ c.toNat = 9 ∨ c.toNat = 10 ∨ c.toNat = 13 ∨ c.toNat = 11 ∨ c.toNat = 12

def dropWhileWs : List Char → List Char
  | [] => []
  | c :: cs => if wsChar c then dropWhileWs cs else c :: cs

/-- Python `str.strip()`. -/
def pyStrip (s : String) : String :=
  ⟨((dropWhileWs s.data).reverse |> dropWhileWs).reverse⟩

/-- ASCII case folding, as Python `str.lower()` on the ASCII tokens this
code compares against (the few non-ASCII literals involved, e.g. `"sí"`,
are already lowercase). -/
def lowerChar (c : Char) : Char :=
  if 65 ≤ c.toNat ∧ c.toNat ≤ 90 then Char.ofNat (c.toNat + 32) else c

/-- Python `str.lower()`. -/
def pyLower (s : String) : String :=
  ⟨s.data.map lowerChar⟩

/-- Decimal digit run to a number (`none` on empty or non-digit input). -/
def parseNatList (cs : List Char) : Option Nat :=
  if cs = [] then none
  else cs.foldl (fun acc c =>
    match acc with
    | none => none
    | some n => if 48 ≤ c.toNat ∧ c.toNat ≤ 57 then some (n * 10 + (c.toNat - 48)) else none)
    (some 0)

/-- Optionally-signed decimal integer literal. -/
def parseIntList : List Char → Option Int
  | '-' :: rest => (parseNatList rest).map (fun n => -(n : Int))
  | '+' :: rest => (parseNatList rest).map (fun n => (n : Int))
  | cs => (parseNatList cs).map (fun n => (n : Int))

/-- Split a character list on `'.'`. -/
def splitDotAux : List Char → List Char → List (List Char)
  | [], acc => [acc.reverse]
  | c :: cs, acc =>
    if c = '.' then acc.reverse :: splitDotAux cs []
    else splitDotAux cs (c :: acc)

/-- Truncation toward zero, as Python `int(float)`. -/
def ratTrunc (q : Rat) : Int :=
  if q < 0 then -((-q).floor) else q.floor

/-- Python `int(value)` restricted to the scalars above; `none` models a
raised exception (caught by the callers as "unparseable"). String parsing
is modelled for optionally-signed integer literals, the only shape the
verified properties exercise. -/
def pyInt : Val → Option Int
  | .vnone => none
  | .vint n => some n
  | .vbool b => some (if b then 1 else 0)
  | .vfloat q => some (ratTrunc q)
  | .vstr s => parseIntList (pyStrip s).data
  | .vdate _ => none

/-- Parse of a decimal literal `[-]digits[.digits]` to a rational; models
Python `float(str)` on the literals the verified properties exercise. -/
def parseRat (s : String) : Option Rat :=
  match splitDotAux s.data [] with
  | [a] => (parseIntList a).map (fun n => (n : Rat))
  | [a, b] =>
    match parseIntList a, parseNatList b with
    | some n, some f =>
      let frac : Rat := (f : Rat) / ((10 : Rat) ^ b.length)
      some (if a.head? = some '-' then (n : Rat) - frac else (n : Rat) + frac)
    | _, _ => none
  | _ => none

/-- Python `float(value)` on the scalars above; `none` models a raised
exception. -/
def pyFloat : Val → Option Rat
  | .vnone => none
  | .vint n => some n
  | .vbool b => some (if b then 1 else 0)
  | .vfloat q => some q
  | .vstr s => parseRat (pyStrip s)
  | .vdate _ => none

/-- A Python dict record: association list, first match wins. -/
abbrev Record := List (String × Val)

/-- Dict membership `k in data`. -/
def hasKey (r : Record) (k : String) : Bool :=
  r.any (fun p => p.1 = k)

/-- Dict lookup `data.get(k)` (absent key yields Python `None`). -/
def getV (r : Record) (k : String) : Val :=
  match r.find? (fun p => p.1 = k) with
  | some p => p.2
  | none => .vnone

/-- Dict assignment `d[k] = v`, keeping the key set otherwise intact. -/
def setV (r : Record) (k : String) (v : Val) : Record :=
  if hasKey r k then r.map (fun p => if p.1 = k then (k, v) else p)
  else r ++ [(k, v)]

/-- Lift an optional string back into a Python value (None / str). -/
def ofOptStr : Option String → Val
  | none => .vnone
  | some s => .vstr s

def ofOptInt : Option Int → Val
  | none => .vnone
  | some n => .vint n

def ofOptRat : Option Rat → Val
  | none => .vnone
  | some q => .vfloat q

def ofOptBool : Option Bool → Val
  | none => .vnone
  | some b => .vbool b

/-- `payload = {k: data[k] for k in fields if k in data}` — the allow-list
selection loop shared by both `save` implementations, keeping the field
iteration order. -/
def selectAllowed (ks : List String) (data : Record) : Record :=
  ks.foldl (fun p k => if hasKey data k then p ++ [(k, getV data k)] else p) []

/-- A block of unconditional per-key normalization assignments
`payload[k] = F(payload.get(k))` for `k` over `ks`. -/
def normFold (ks : List String) (F : Record → String → Val) (r : Record) : Record :=
  ks.foldl (fun p k => setV p k (F p k)) r

end CRM

namespace Clientes
open CRM

/-- `modules/clientes.py::_clean_str`: strip, map `"none"`-insensitive and
empty strings (and Python `None`) to absence. -/
def clean_str (v : Val) : Option String :=
  match v with
  | .vnone => none
  | v =>
    let s := pyStrip (pyStr v)
    if pyLower s = "none" then none
    else if s = "" then none
    else some s

/-- `modules/clientes.py::_to_int`. -/
def to_int (v : Val) : Option Int :=
  match v with
  | .vnone => none
  | .vstr s =>
    if s = "" then none
    else if pyLower (pyStrip s) = "none" then none
    else pyInt (.vstr s)
  | v => pyInt v

/-- `modules/clientes.py::_to_float`. -/
def to_float (v : Val) : Option Rat :=
  match v with
  | .vnone => none
  | .vstr s =>
    if s = "" then none
    else if pyLower (pyStrip s) = "none" then none
    else pyFloat (.vstr s)
  | v => pyFloat v

/-- `modules/clientes.py::_to_bool`. -/
def to_bool (v : Val) : Option Bool :=
  match v with
  | .vnone => none
  | .vbool b => some b
  | v =>
    if pyStr v = "" then none
    else
      let s := pyLower (pyStrip (pyStr v))
      if s = "si" ∨ s = "sí" ∨ s = "true" ∨ s = "1" ∨ s = "y" ∨ s = "yes" then some true
      else if s = "no" ∨ s = "false" ∨ s = "0" ∨ s = "n" then some false
      else none

/-- `modules/clientes.py::_to_date_str`: date-like objects yield their
isoformat; strings must match `YYYY-MM-DD`. -/
def to_date_str (v : Val) : Option String :=
  match v with
  | .vnone => none
  | .vdate iso => some iso
  | v =>
    let s := pyStrip (pyStr v)
    if s = "" then none
    else if pyLower s = "none" then none
    else if s.data.length = 10 ∧ s.data.get? 4 = some '-' ∧ s.data.get? 7 = some '-'
    then some s
    else none

/-- `modules/clientes.py::_is_empty`. -/
def is_empty (v : Val) : Bool :=
  match v with
  | .vnone => true
  | .vstr s => pyStrip s = "" || pyLower (pyStrip s) = "none"
  | _ => false

/-- `modules/clientes.py::_normalize_cliente`: copy the `pi_*` keys onto
the `interes_*` keys when the latter are absent. -/
def normalize_cliente (cliente : Record) : Record :=
  let step := fun (data : Record) (src dst : String) =>
    if hasKey data src ∧ ¬ hasKey data dst then setV data dst (getV data src) else data
  let d := cliente
  let d := step d "pi_pais" "interes_pais"
  let d := step d "pi_estado" "interes_estado"
  let d := step d "pi_ciudad" "interes_ciudad"
  let d := step d "pi_zona" "interes_zona"
  let d := step d "pi_tipo" "interes_tipo"
  d

/-- The allow-list of client columns (`fields` in `clientes.py::save`),
in a fixed iteration order. -/
def clienteFields : List String :=
  ["activo", "primer_nombre", "segundo_nombre", "apellido_paterno", "apellido_materno",
   "curp", "fecha_nacimiento", "edad", "genero", "estado_civil", "telefono", "correo",
   "pais", "estado", "ciudad", "zona", "ocupacion", "antiguedad_laboral",
   "ingreso_mensual", "tipo_credito", "buro_credito", "presupuesto_min",
   "presupuesto_max", "nivel_educativo", "hijos", "metodo_captacion",
   "origen_captacion", "interes_pais", "interes_estado", "interes_ciudad",
   "interes_zona", "interes_tipo", "zona_interes", "deudor_alimenticio",
   "propiedades_previas", "num_propiedades_previas", "edad_adquisicion",
   "estado_cliente", "tipo_cliente", "etapa_embudo", "score", "asesor_id"]

/-- The string-normalized columns of `clientes.py::save`, in source order. -/
def strNormKeys : List String :=
  ["curp", "primer_nombre", "segundo_nombre", "apellido_paterno", "apellido_materno",
   "telefono", "correo"]

def strNormKeys2 : List String :=
  ["pais", "estado", "ciudad", "zona", "ocupacion", "antiguedad_laboral",
   "tipo_credito", "buro_credito", "nivel_educativo", "metodo_captacion",
   "origen_captacion", "interes_pais", "interes_estado", "interes_ciudad",
   "interes_zona", "interes_tipo", "zona_interes", "estado_cliente",
   "tipo_cliente", "etapa_embudo"]

def intNormKeys : List String :=
  ["edad", "hijos", "num_propiedades_previas", "edad_adquisicion", "score", "asesor_id"]

def floatNormKeys : List String :=
  ["ingreso_mensual", "presupuesto_min", "presupuesto_max"]

def boolNormKeys : List String :=
  ["deudor_alimenticio", "propiedades_previas"]

/-- The normalized payload of `clientes.py::save`: allow-listed keys of
the input, then the unconditional per-type normalization assignments
(`payload[k] = _clean_str(payload.get(k))`, …), then the conditional
`bool()` cast of `activo`. -/
def clientePayload (data : Record) : Record :=
  let p0 := selectAllowed clienteFields data
  let p1 := normFold strNormKeys (fun p k => ofOptStr (clean_str (getV p k))) p0
  let p2 := setV p1 "fecha_nacimiento" (ofOptStr (to_date_str (getV p1 "fecha_nacimiento")))
  let p3 := normFold strNormKeys2 (fun p k => ofOptStr (clean_str (getV p k))) p2
  let p4 := normFold intNormKeys (fun p k => ofOptInt (to_int (getV p k))) p3
  let p5 := normFold floatNormKeys (fun p k => ofOptRat (to_float (getV p k))) p4
  let p6 := normFold boolNormKeys (fun p k => ofOptBool (to_bool (getV p k))) p5
  if hasKey p6 "activo" then setV p6 "activo" (.vbool (pyTruthy (getV p6 "activo"))) else p6

/-- The insert column set of `clientes.py::save` (`data` already
`_normalize_cliente`d): `{k: v for k, v in payload.items() if k != "id"
and not _is_empty(v)}`. -/
def clienteInsertPayload (data : Record) : Record :=
  (clientePayload data).filter (fun p => p.1 ≠ "id" ∧ ¬ is_empty p.2)

/-- State of the `clientes` SQL table: rows keyed by serial id; `defaults`
are the storage defaults a plain `INSERT` leaves in unmentioned columns. -/
structure ClientesDb where
  rows : List (Int × Record)
  nextId : Int
  defaults : Record
deriving Repr, DecidableEq

/-- Apply an insert payload on top of the storage defaults (columns not
named in the INSERT take their defaults). -/
def applyCols (defaults : Record) (cols : Record) : Record :=
  cols.foldl (fun r p => setV r p.1 p.2) defaults

/-- `modules/clientes.py::save` (PostgreSQL path). Errors model raised
exceptions (`ValueError` from `int(...)` on an unparseable id). -/
def save (cliente : Record) (db : ClientesDb) : Except String (Record × ClientesDb) :=
  let data := normalize_cliente cliente
  let payload := clientePayload data
  let idRaw := getV data "id"
  if hasKey data "id" ∧ idRaw ≠ .vnone ∧ pyStrip (pyStr idRaw) ≠ "" then
    match pyInt idRaw with
    | none => .error "invalid literal for int()"
    | some cid =>
      let updatePayload : Record := clienteFields.foldl
        (fun up k =>
          if hasKey data k then
            let v := getV payload k
            up ++ [(k, if is_empty v then .vnone else v)]
          else up) []
      if updatePayload = [] then .ok ([("id", .vint cid)], db)
      else
        let rows' := db.rows.map (fun r =>
          if r.1 = cid then (r.1, applyCols r.2 updatePayload) else r)
        .ok ([("id", .vint cid)] ++ updatePayload, { db with rows := rows' })
  else
    let insertPayload := clienteInsertPayload data
    if insertPayload = [] then
      .ok ([("id", .vint db.nextId)],
           { db with rows := db.rows ++ [(db.nextId, db.defaults)],
                     nextId := db.nextId + 1 })
    else
      .ok ([("id", .vint db.nextId)] ++ insertPayload,
           { db with rows := db.rows ++ [(db.nextId, applyCols db.defaults insertPayload)],
                     nextId := db.nextId + 1 })

/-- `modules/clientes.py::eliminar_cliente` (hard delete): `DELETE FROM
clientes WHERE id=%s`, result is `rowcount > 0`. -/
def eliminar_cliente (cid : Int) (db : ClientesDb) : Bool × ClientesDb :=
  (db.rows.any (fun r => r.1 = cid),
   { db with rows := db.rows.filter (fun r => ¬ r.1 = cid) })

end Clientes

namespace ClienteUI
open CRM

/-- `ui/clientes/cliente_form.py::_validar_curp`: empty CURP passes, any
other length than 18 is a validation error. -/
def validar_curp (curp : String) : Option String :=
  let c := pyStrip curp
  if c = "" then none
  else if c.data.length ≠ 18 then some "CURP invalido (debe tener 18 caracteres)."
  else none

end ClienteUI

namespace Propiedades
open CRM

/-- `modules/propiedades.py::_clean_str` (no "none" handling, unlike the
clientes variant). -/
def clean_str (v : Val) : Option String :=
  match v with
  | .vnone => none
  | v =>
    let s := pyStrip (pyStr v)
    if s = "" then none else some s

/-- `modules/propiedades.py::_to_int`. -/
def to_int (v : Val) : Option Int :=
  match v with
  | .vnone => none
  | .vstr s => if s = "" then none else pyInt (.vstr s)
  | v => pyInt v

/-- `modules/propiedades.py::_to_float`. -/
def to_float (v : Val) : Option Rat :=
  match v with
  | .vnone => none
  | .vstr s => if s = "" then none else pyFloat (.vstr s)
  | v => pyFloat v

/-- The allow-list of property columns (`fields` in `propiedades.py::save`). -/
def propFields : List String :=
  ["activo", "titulo", "descripcion", "precio", "metros", "estado",
   "ciudad", "zona", "tipo", "habitaciones", "amenidades"]

/-- The normalized payload of `propiedades.py::save`, translated from the
allow-list step down (`_normalize_propiedad`'s flattening of the legacy
nested `ubicacion`/`caracteristicas` shapes only adds flat keys before
this step and is the identity on flat scalar records such as those
modelled here).  Every per-type normalization line assigns its key
unconditionally, so all ten normalized columns are present afterwards,
with `precio` defaulting to `0.0` (`_to_float(...) or 0.0`). -/
def propStrKeys : List String :=
  ["titulo", "descripcion", "estado", "ciudad", "zona", "tipo", "amenidades"]

def propPayloadCore (data : Record) : Record :=
  let p0 := selectAllowed propFields data
  let p1 := normFold propStrKeys (fun p k => ofOptStr (clean_str (getV p k))) p0
  let p2 := setV p1 "precio"
    (.vfloat (match to_float (getV p1 "precio") with
              | some q => if q = 0 then 0 else q
              | none => 0))
  let p3 := setV p2 "metros" (ofOptRat (to_float (getV p2 "metros")))
  setV p3 "habitaciones" (ofOptInt (to_int (getV p3 "habitaciones")))

def propPayload (data : Record) : Record :=
  let p4 := propPayloadCore data
  if hasKey p4 "activo" then setV p4 "activo" (.vbool (pyTruthy (getV p4 "activo"))) else p4

/-- The column set written by the insert branch of `propiedades.py::save`
(there is no emptiness filter: the whole payload is inserted). -/
def propInsertCols (data : Record) : Record :=
  propPayload data

/-- A row of the `propiedades` SQL table (typed columns per the schema
used by `modules/propiedades.py` and the read API). -/
structure PropRow where
  id : Int
  titulo : Option String
  descripcion : Option String
  precio : Rat
  metros : Option Rat
  estado : Option String
  ciudad : Option String
  zona : Option String
  tipo : Option String
  habitaciones : Option Int
  amenidades : Option String
  activo : Bool
deriving Repr, DecidableEq

/-- `modules/propiedades.py::eliminar_propiedad` (soft delete):
`UPDATE propiedades SET activo=FALSE WHERE id=%s`, result is
`rowcount > 0` (rows matched). -/
def eliminar_propiedad (pid : Int) (db : List PropRow) : Bool × List PropRow :=
  (db.any (fun r => r.id = pid),
   db.map (fun r => if r.id = pid then { r with activo := false } else r))

end Propiedades

namespace ApiRepo
open CRM

/-- A stored item of the JSON property store, restricted to the keys
`_filter_items` reads.  `caracDict` is `some m` when the item carries a
dict-valued `caracteristicas`, `caracOther = true` when it carries a
non-dict one. -/
structure Item where
  id : Int
  zona : Option Val := none
  ubicacionZona : Option Val := none
  tipo : Option Val := none
  tipoPropiedad : Option Val := none
  precio : Option Val := none
  habitaciones : Option Val := none
  caracDict : Option (List (String × Val)) := none
  caracOther : Bool := false
deriving Repr, DecidableEq

/-- `item.get("zona", item.get("ubicacion", {}).get("zona", ""))`. -/
def itemZona (i : Item) : Val :=
  match i.zona with
  | some v => v
  | none => match i.ubicacionZona with
            | some v => v
            | none => .vstr ""

/-- `item.get("tipo", item.get("tipo_propiedad", ""))`. -/
def itemTipo (i : Item) : Val :=
  match i.tipo with
  | some v => v
  | none => match i.tipoPropiedad with
            | some v => v
            | none => .vstr ""

/-- The truthy amenity keys of `caracteristicas` when it is a dict,
`[]` otherwise (`repository.py::_filter_items`). -/
def itemAmenities (i : Item) : List String :=
  match i.caracDict with
  | some m => (m.filter (fun p => pyTruthy p.2)).map (fun p => p.1)
  | none => []

/-- The per-item predicate `_match` of `repository.py::_filter_items`. -/
def itemMatch (zone : Option String) (priceMin priceMax : Option Rat)
    (tipo : Option String) (bedrooms : Option Int) (amenities : List String)
    (i : Item) : Bool :=
  (match zone with
   | some z => if z ≠ "" then pyLower (pyStr (itemZona i)) = pyLower z else true
   | none => true) &&
  (match tipo with
   | some t => if t ≠ "" then pyLower (pyStr (itemTipo i)) = pyLower t else true
   | none => true) &&
  (match priceMin with
   | some m => match pyFloat (i.precio.getD (.vint 0)) with
               | some p => decide (m ≤ p)
               | none => false
   | none => true) &&
  (match priceMax with
   | some m => match pyFloat (i.precio.getD (.vint 0)) with
               | some p => decide (p ≤ m)
               | none => false
   | none => true) &&
  (match bedrooms with
   | some b => match pyInt (i.habitaciones.getD (.vint 0)) with
               | some h => h = b
               | none => false
   | none => true) &&
  (amenities.all (fun a => a ∈ itemAmenities i))

/-- `repository.py::_filter_items`. -/
def filter_items (items : List Item) (zone : Option String)
    (priceMin priceMax : Option Rat) (tipo : Option String)
    (bedrooms : Option Int) (amenities : List String) : List Item :=
  items.filter (itemMatch zone priceMin priceMax tipo bedrooms amenities)

/-- The SQL branch of `repository.py::list_properties`: the parameterized
`WHERE` clause only ever mentions `zona`, `tipo`, `precio` and
`habitaciones` — the `amenities` argument is never consulted. -/
def sqlPropMatch (zone : Option String) (priceMin priceMax : Option Rat)
    (tipo : Option String) (bedrooms : Option Int)
    (r : Propiedades.PropRow) : Bool :=
  (match zone with
   | some z => if z ≠ "" then r.zona = some z else true
   | none => true) &&
  (match tipo with
   | some t => if t ≠ "" then r.tipo = some t else true
   | none => true) &&
  (match priceMin with
   | some m => decide (m ≤ r.precio)
   | none => true) &&
  (match priceMax with
   | some m => decide (r.precio ≤ m)
   | none => true) &&
  (match bedrooms with
   | some b => r.habitaciones = some b
   | none => true)

/-- `repository.py::list_properties`, SQL branch (`settings.api_use_db`):
executes the parameterized query above; `amenities` is accepted but
ignored by the query construction. -/
def list_properties_sql (db : List Propiedades.PropRow) (zone : Option String)
    (priceMin priceMax : Option Rat) (tipo : Option String)
    (bedrooms : Option Int) (amenities : List String) : List Propiedades.PropRow :=
  let _ := amenities
  db.filter (sqlPropMatch zone priceMin priceMax tipo bedrooms)

/-- `repository.py::list_properties`, JSON branch (default,
`API_USE_DB` unset/false): load the store and run `_filter_items`. -/
def list_properties_json (store : List Item) (zone : Option String)
    (priceMin priceMax : Option Rat) (tipo : Option String)
    (bedrooms : Option Int) (amenities : List String) : List Item :=
  filter_items store zone priceMin priceMax tipo bedrooms amenities

end ApiRepo

namespace ClientesQ
open CRM

/-- A row of the `clientes` SQL table restricted to the columns read by
`clientes.py::_build_where` plus the `ORDER BY` keys
(`fecha_registro DESC, id DESC`); `fecha_registro` is the registration
timestamp, modelled as an integer instant. -/
structure ClienteRow where
  id : Int
  fecha_registro : Int
  asesor_id : Option Int
  estado_cliente : Option String
  tipo_cliente : Option String
  etapa_embudo : Option String
  origen_captacion : Option String
  presupuesto_min : Option Rat
  presupuesto_max : Option Rat
  primer_nombre : Option String
  segundo_nombre : Option String
  apellido_paterno : Option String
  apellido_materno : Option String
  curp : Option String
  telefono : Option String
  correo : Option String
deriving Repr, DecidableEq

/-- The sparse filter dict accepted by `_build_where` (only the keys it
reads). -/
structure Filtros where
  estado_cliente : Option String := none
  tipo_cliente : Option String := none
  etapa_embudo : Option String := none
  origen_captacion : Option String := none
  presupuesto_min : Option Rat := none
  presupuesto_max : Option Rat := none
deriving Repr, DecidableEq

/-- Python truthiness of an optional string (`if estado:` — absent and
`""` are both falsy). -/
def truthyS : Option String → Bool
  | some s => s ≠ ""
  | none => false

/-- Python truthiness of an optional int (`if asesor_id:` — absent and
`0` are both falsy). -/
def truthyI : Option Int → Bool
  | some n => n ≠ 0
  | none => false

/-- Case-insensitive substring test:
`LOWER(COALESCE(col,'')) ILIKE '%text%'` on an already-lowercased
pattern. -/
def ilikeSub (col : Option String) (tLower : String) : Bool :=
  decide (tLower.data <:+: (pyLower (col.getD "")).data)

/-- SQL equality `col=%s` against a NULLable text column (NULL never
matches). -/
def eqCol (col : Option String) (v : String) : Bool :=
  col = some v

/-- The row predicate denoted by the `WHERE` clause built by
`clientes.py::_build_where texto asesor_id filtros` (each conjunct is
appended only when its argument is truthy / non-None, exactly as in the
source). -/
def clienteMatch (texto : Option String) (asesorId : Option Int)
    (f : Filtros) (r : ClienteRow) : Bool :=
  (if truthyI asesorId then r.asesor_id = asesorId else true) &&
  (if truthyS f.estado_cliente then eqCol r.estado_cliente (f.estado_cliente.getD "") else true) &&
  (if truthyS f.tipo_cliente then eqCol r.tipo_cliente (f.tipo_cliente.getD "") else true) &&
  (if truthyS f.etapa_embudo then eqCol r.etapa_embudo (f.etapa_embudo.getD "") else true) &&
  (if truthyS f.origen_captacion then eqCol r.origen_captacion (f.origen_captacion.getD "") else true) &&
  (match f.presupuesto_min with
   | some m => match r.presupuesto_min with
               | some v => decide (m ≤ v)
               | none => false
   | none => true) &&
  (match f.presupuesto_max with
   | some m => match r.presupuesto_max with
               | some v => decide (v ≤ m)
               | none => false
   | none => true) &&
  (if truthyS texto then
     let t := pyLower (texto.getD "")
     ilikeSub r.primer_nombre t || ilikeSub r.segundo_nombre t ||
     ilikeSub r.apellido_paterno t || ilikeSub r.apellido_materno t ||
     ilikeSub r.curp t || ilikeSub r.telefono t || ilikeSub r.correo t
   else true)

/-- The `ORDER BY fecha_registro DESC, id DESC` comparison (row `a` comes
no later than row `b`). -/
def rowBefore (a b : ClienteRow) : Prop :=
  b.fecha_registro < a.fecha_registro ∨
  (b.fecha_registro = a.fecha_registro ∧ b.id ≤ a.id)

instance : DecidableRel rowBefore := fun a b => by
  unfold rowBefore; infer_instance

/-- The full ordered result set of the clientes SELECT for a given WHERE
clause: filter then sort by the shared ordering key. -/
def queryClientes (db : List ClienteRow) (texto : Option String)
    (asesorId : Option Int) (f : Filtros) : List ClienteRow :=
  (db.filter (clienteMatch texto asesorId f)).insertionSort rowBefore

/-- `LIMIT page_size OFFSET max(0, (page-1)*page_size)` over an ordered
result set (`page` is 1-based; the source clamps the offset at 0). -/
def pageSlice (l : List ClienteRow) (page pageSize : Int) : List ClienteRow :=
  ((l.drop (max 0 ((page - 1) * pageSize)).toNat).take pageSize.toNat)

/-- `modules/clientes.py::listar_clientes` (no free-text clause). -/
def listar_clientes (db : List ClienteRow) (page pageSize : Int)
    (asesorId : Option Int) (f : Filtros) : List ClienteRow :=
  pageSlice (queryClientes db none asesorId f) page pageSize

/-- `modules/clientes.py::buscar_clientes`. -/
def buscar_clientes (db : List ClienteRow) (texto : String) (page pageSize : Int)
    (asesorId : Option Int) (f : Filtros) : List ClienteRow :=
  pageSlice (queryClientes db (some texto) asesorId f) page pageSize

/-- `modules/clientes.py::contar_clientes`: `SELECT COUNT(*)` with the
same `_build_where` clause. -/
def contar_clientes (db : List ClienteRow) (texto : Option String)
    (asesorId : Option Int) (f : Filtros) : Int :=
  (db.filter (clienteMatch texto asesorId f)).length

end ClientesQ

namespace Auth
open CRM

/-- A row of the `asesores` table, restricted to the nine columns
`modules/auth.py` reads/writes; `ultimo_acceso` is a timestamp modelled
as an integer instant.  The JSON fallback store holds the same shape
keyed by username. -/
structure Asesor where
  id : Int
  username : String
  password_hash : String
  rol : String
  nombres : String
  apellidos : String
  activo : Bool
  requiere_cambio_password : Bool
  ultimo_acceso : Option Int
deriving Repr, DecidableEq

/-- The in-memory `_current_user` dict populated by a successful login.
(The fallback path stores no flag key; `dict.get(flag, False)` reads it
back as `false`, which is how it is modelled here.) -/
structure Session where
  id : Int
  username : String
  rol : String
  nombres : Option String
  apellidos : Option String
  requiere_cambio_password : Bool
deriving Repr, DecidableEq

/-- The redacted public profile returned by `login`. -/
structure PublicUser where
  username : String
  role : String
deriving Repr, DecidableEq

/-- The `AuthManager` state: the `asesores` table, the JSON fallback
store (keyed by username), the single in-memory session slot, and the
`_use_db` mode flag. -/
structure AuthState where
  users : List Asesor
  store : List (String × Asesor)
  session : Option Session
  useDb : Bool
deriving Repr, DecidableEq

/-- Raised failures, keeping the permission/validation distinction of the
source (`PermissionError` vs `ValueError`). -/
inductive AuthErr where
  | valueError (msg : String)
  | permissionError (msg : String)
deriving Repr, DecidableEq

/-- `SELECT ... FROM asesores WHERE username=%s` + `fetchone()`
(`_fetch_asesor_by_username_db`). -/
def fetchByUsername (users : List Asesor) (u : String) : Option Asesor :=
  users.find? (fun a => a.username = u)

/-- `_update_ultimo_acceso_db`. -/
def updateUltimoAcceso (users : List Asesor) (aid : Int) (now : Int) : List Asesor :=
  users.map (fun a => if a.id = aid then { a with ultimo_acceso := some now } else a)

/-- `_update_password_db`: `UPDATE asesores SET password_hash=%s,
requiere_cambio_password=%s WHERE id=%s` (a no-op when no row matches). -/
def updatePasswordDb (users : List Asesor) (aid : Int) (hash : String)
    (requiereCambio : Bool) : List Asesor :=
  users.map (fun a =>
    if a.id = aid then { a with password_hash := hash,
                                requiere_cambio_password := requiereCambio }
    else a)

/-- The `(exito, usuario_publico, mensaje_error)` triple of `login`. -/
structure LoginResult where
  exito : Bool
  usuario : Option PublicUser
  mensaje : Option String
deriving Repr, DecidableEq

/-- `AuthManager.login`.  `verify` models `bcrypt.checkpw` (any exception
therein already yields `false` in `_verify_password`), `now` the current
instant.  A username missing from the DB falls through to the JSON
store; DB failures are out of the model (connections always succeed). -/
def login (verify : String → String → Bool) (now : Int) (st : AuthState)
    (username password : String) : LoginResult × AuthState :=
  let dbAttempt : Option (LoginResult × AuthState) :=
    if st.useDb then
      match fetchByUsername st.users username with
      | none => none
      | some a =>
        if ¬ a.activo then
          some (⟨false, none, some "Usuario no encontrado o inactivo."⟩, st)
        else if ¬ verify password a.password_hash then
          some (⟨false, none, some "Usuario o contraseña inválidos."⟩, st)
        else
          some (⟨true, some ⟨a.username, a.rol⟩, none⟩,
                { st with users := updateUltimoAcceso st.users a.id now,
                          session := some ⟨a.id, a.username, a.rol, some a.nombres,
                                           some a.apellidos, a.requiere_cambio_password⟩ })
    else none
  match dbAttempt with
  | some r => r
  | none =>
    match st.store.find? (fun p => p.1 = username) with
    | none => (⟨false, none, some "Usuario no encontrado."⟩, st)
    | some pu =>
      if ¬ verify password pu.2.password_hash then
        (⟨false, none, some "Usuario o contraseña inválidos."⟩, st)
      else
        (⟨true, some ⟨username, pu.2.rol⟩, none⟩,
         { st with session := some ⟨pu.2.id, username, pu.2.rol, none, none, false⟩,
                   store := st.store.map (fun p =>
                     if p.1 = username then (p.1, { p.2 with ultimo_acceso := some now })
                     else p) })

/-- `AuthManager.requiere_cambio_password`. -/
def requiere_cambio_password (st : AuthState) : Bool :=
  match st.session with
  | none => false
  | some s => s.requiere_cambio_password

/-- `AuthManager.is_admin`. -/
def is_admin (st : AuthState) : Bool :=
  match st.session with
  | none => false
  | some s => pyLower s.rol = "admin"

/-- `AuthManager.cambiar_password` (the by-username call shape). `hashF`
models `bcrypt.hashpw ∘ gensalt`. -/
def cambiar_password (hashF : String → String) (st : AuthState)
    (username nueva : String) : Except AuthErr AuthState :=
  if st.useDb then
    match fetchByUsername st.users username with
    | none => .error (.valueError "Usuario no existe")
    | some a =>
      let users' := updatePasswordDb st.users a.id (hashF nueva) false
      let session' :=
        match st.session with
        | some s => if s.username = username
                    then some { s with requiere_cambio_password := false }
                    else some s
        | none => none
      .ok { st with users := users', session := session' }
  else
    match st.store.find? (fun p => p.1 = username) with
    | none => .error (.valueError "Usuario no existe")
    | some _ =>
      .ok { st with store := st.store.map (fun p =>
        if p.1 = username
        then
          let u := { p.2 with password_hash := hashF nueva, requiere_cambio_password := false }
          (p.1, u)
        else p) }

/-- First-match update of the fallback store in `resetear_password`
(`for k, v in store.items(): if v["id"] == asesor_id: ...; return`). -/
def resetStoreFirst (hash : String) (aid : Int) :
    List (String × Asesor) → Option (List (String × Asesor))
  | [] => none
  | p :: rest =>
    if p.2.id = aid then
      let u := { p.2 with password_hash := hash, requiere_cambio_password := true }
      some ((p.1, u) :: rest)
    else (resetStoreFirst hash aid rest).map (p :: ·)

/-- `AuthManager.resetear_password`.  The permission check runs only when
the DB is in use AND a `performed_by` id was supplied: it looks up that
id's stored `rol` and demands it be exactly `"admin"`; the in-memory
session is never consulted.  On the DB path the update silently affects
zero rows when the target id does not exist. -/
def resetear_password (hashF : String → String) (st : AuthState)
    (asesorId : Int) (passwordNueva : String) (performedBy : Option Int) :
    Except AuthErr AuthState :=
  let check : Except AuthErr Unit :=
    match performedBy with
    | some pid =>
      if st.useDb then
        match st.users.find? (fun a => a.id = pid) with
        | some a => if a.rol = "admin" then .ok () else .error (.permissionError "Permisos insuficientes")
        | none => .error (.permissionError "Permisos insuficientes")
      else .ok ()
    | none => .ok ()
  match check with
  | .error e => .error e
  | .ok _ =>
    let newHash := hashF passwordNueva
    if st.useDb then
      .ok { st with users := updatePasswordDb st.users asesorId newHash true }
    else
      match resetStoreFirst newHash asesorId st.store with
      | some store' => .ok { st with store := store' }
      | none => .error (.valueError "Usuario no existe en fallback")

end Auth

namespace CRM

theorem fst_setV_entry (k : String) (v : Val) (p : String × Val) :
    (if p.1 = k then (k, v) else p).1 = p.1 := by
  by_cases h : p.1 = k
  · simp [h]
  · simp [h]

theorem anyCongr {α : Type} (l : List α) (f g : α → Bool)
    (h : ∀ a ∈ l, f a = g a) : l.any f = l.any g := by
  induction l with
  | nil => rfl
  | cons x xs ih =>
    simp only [List.any_cons, h x (by simp)]
    rw [ih (fun a ha => h a (by simp [ha]))]

theorem hasKey_setV (r : Record) (k : String) (v : Val) (k' : String) :
    hasKey (setV r k v) k' = (hasKey r k' || k = k') := by
  unfold setV
  by_cases h : hasKey r k
  · rw [if_pos h]
    unfold hasKey
    rw [List.any_map]
    have hc : ∀ p ∈ r,
        ((fun p : String × Val => decide (p.1 = k')) ∘
          (fun p : String × Val => if p.1 = k then (k, v) else p)) p
          = (fun p : String × Val => decide (p.1 = k')) p := by
      intro p _
      simp [Function.comp, fst_setV_entry]
    rw [anyCongr _ _ _ hc]
    by_cases hk : k = k'
    · subst hk
      unfold hasKey at h
      simp only [h, Bool.true_or]
    · simp [hk]
  · rw [if_neg h]
    unfold hasKey
    rw [List.any_append]
    simp

theorem hasKey_setV_self (r : Record) (k : String) (v : Val) :
    hasKey (setV r k v) k = true := by
  simp [hasKey_setV]

theorem hasKey_setV_mono (r : Record) (k' : String) (v : Val) (k : String)
    (h : hasKey r k = true) : hasKey (setV r k' v) k = true := by
  simp [hasKey_setV, h]

/-- Membership in a `setV` result comes from the original record or is
the assigned pair. -/
theorem mem_setV (r : Record) (k : String) (v : Val) (p : String × Val)
    (hp : p ∈ setV r k v) : p ∈ r ∨ p = (k, v) := by
  unfold setV at hp
  by_cases h : hasKey r k
  · rw [if_pos h] at hp
    rw [List.mem_map] at hp
    obtain ⟨q, hq, hqe⟩ := hp
    by_cases hqk : q.1 = k
    · rw [if_pos hqk] at hqe
      exact Or.inr hqe.symm
    · rw [if_neg hqk] at hqe
      exact Or.inl (hqe ▸ hq)
  · rw [if_neg h] at hp
    rw [List.mem_append, List.mem_singleton] at hp
    exact hp

end CRM

namespace CRM

theorem selectAllowed_aux (data : Record) (p : String × Val) :
    ∀ (ks : List String) (init : Record),
      p ∈ ks.foldl (fun acc k => if hasKey data k then acc ++ [(k, getV data k)] else acc) init →
      p ∈ init ∨ p.1 ∈ ks := by
  intro ks
  induction ks with
  | nil =>
    intro init h
    exact Or.inl h
  | cons k ks ih =>
    intro init h
    rw [List.foldl_cons] at h
    rcases ih _ h with h1 | h1
    · by_cases hk : hasKey data k
      · rw [if_pos hk] at h1
        rcases List.mem_append.1 h1 with h2 | h2
        · exact Or.inl h2
        · right
          simp only [List.mem_singleton] at h2
          simp [h2]
      · rw [if_neg hk] at h1
        exact Or.inl h1
    · right
      simp [h1]

/-- Every entry produced by the allow-list selection loop has its key in
the iterated field list. -/
theorem mem_selectAllowed (ks : List String) (data : Record) (p : String × Val)
    (hp : p ∈ selectAllowed ks data) : p.1 ∈ ks := by
  unfold selectAllowed at hp
  rcases selectAllowed_aux data p ks [] hp with h | h
  · simp at h
  · exact h

theorem normFold_aux (F : Record → String → Val) (p : String × Val) :
    ∀ (ks : List String) (r : Record),
      p ∈ ks.foldl (fun acc k => setV acc k (F acc k)) r → p ∈ r ∨ p.1 ∈ ks := by
  intro ks
  induction ks with
  | nil =>
    intro r h
    exact Or.inl h
  | cons k ks ih =>
    intro r h
    rw [List.foldl_cons] at h
    rcases ih _ h with h1 | h1
    · rcases mem_setV _ _ _ _ h1 with h2 | h2
      · exact Or.inl h2
      · right
        simp [h2]
    · right
      simp [h1]

/-- Entries of a normalization block come from the input record or carry
one of the block's keys. -/
theorem mem_normFold (ks : List String) (F : Record → String → Val)
    (r : Record) (p : String × Val)
    (hp : p ∈ normFold ks F r) : p ∈ r ∨ p.1 ∈ ks := by
  exact normFold_aux F p ks r hp

theorem hasKey_normFold_aux (F : Record → String → Val) (k : String) :
    ∀ (ks : List String) (r : Record), (k ∈ ks ∨ hasKey r k = true) →
      hasKey (ks.foldl (fun acc k => setV acc k (F acc k)) r) k = true := by
  intro ks
  induction ks with
  | nil =>
    intro r h
    rcases h with h | h
    · simp at h
    · exact h
  | cons k0 ks ih =>
    intro r h
    rw [List.foldl_cons]
    rcases h with h | h
    · rcases List.mem_cons.1 h with h1 | h1
      · subst h1
        exact ih _ (Or.inr (hasKey_setV_self _ _ _))
      · exact ih _ (Or.inl h1)
    · exact ih _ (Or.inr (hasKey_setV_mono _ _ _ _ h))

/-- A normalization block makes all its keys present and keeps the keys
already present. -/
theorem hasKey_normFold (ks : List String) (F : Record → String → Val)
    (r : Record) (k : String) (h : k ∈ ks ∨ hasKey r k = true) :
    hasKey (normFold ks F r) k = true := by
  exact hasKey_normFold_aux F k ks r h

end CRM

namespace Clientes
open CRM

/-- Every key of the normalized clientes payload is allow-listed. -/
theorem clientePayload_keys (data : Record) (p : String × Val)
    (hp : p ∈ clientePayload data) : p.1 ∈ clienteFields := by
  have hsub1 : ∀ k ∈ strNormKeys, k ∈ clienteFields := by decide
  have hsub2 : ∀ k ∈ strNormKeys2, k ∈ clienteFields := by decide
  have hsub3 : ∀ k ∈ intNormKeys, k ∈ clienteFields := by decide
  have hsub4 : ∀ k ∈ floatNormKeys, k ∈ clienteFields := by decide
  have hsub5 : ∀ k ∈ boolNormKeys, k ∈ clienteFields := by decide
  simp only [clientePayload] at hp
  have step6 : ∀ q : String × Val,
      q ∈ normFold boolNormKeys (fun p k => ofOptBool (to_bool (getV p k)))
            (normFold floatNormKeys (fun p k => ofOptRat (to_float (getV p k)))
              (normFold intNormKeys (fun p k => ofOptInt (to_int (getV p k)))
                (normFold strNormKeys2 (fun p k => ofOptStr (clean_str (getV p k)))
                  (setV (normFold strNormKeys (fun p k => ofOptStr (clean_str (getV p k)))
                          (selectAllowed clienteFields data))
                    "fecha_nacimiento"
                    (ofOptStr (to_date_str (getV (normFold strNormKeys
                        (fun p k => ofOptStr (clean_str (getV p k)))
                        (selectAllowed clienteFields data)) "fecha_nacimiento"))))))) →
      q.1 ∈ clienteFields := by
    intro q hq
    rcases mem_normFold _ _ _ _ hq with hq | hq
    · rcases mem_normFold _ _ _ _ hq with hq | hq
      · rcases mem_normFold _ _ _ _ hq with hq | hq
        · rcases mem_normFold _ _ _ _ hq with hq | hq
          · rcases mem_setV _ _ _ _ hq with hq | hq
            · rcases mem_normFold _ _ _ _ hq with hq | hq
              · exact mem_selectAllowed _ _ _ hq
              · exact hsub1 _ hq
            · rw [hq]
              show "fecha_nacimiento" ∈ clienteFields
              decide
          · exact hsub2 _ hq
        · exact hsub3 _ hq
      · exact hsub4 _ hq
    · exact hsub5 _ hq
  split at hp
  · rcases mem_setV _ _ _ _ hp with hp | hp
    · exact step6 _ hp
    · rw [hp]
      show "activo" ∈ clienteFields
      decide
  · exact step6 _ hp

/-- Everything the clientes insert writes is an allow-listed, non-empty,
non-id column. -/
theorem clienteInsertPayload_sound (data : Record) (p : String × Val)
    (hp : p ∈ clienteInsertPayload data) :
    p.1 ∈ clienteFields ∧ p.1 ≠ "id" ∧ is_empty p.2 = false := by
  unfold clienteInsertPayload at hp
  rw [List.mem_filter] at hp
  obtain ⟨h1, h2⟩ := hp
  simp only [decide_eq_true_eq, Bool.not_eq_true] at h2
  exact ⟨clientePayload_keys data p h1, h2.1, by simpa using h2.2⟩

end Clientes

namespace Propiedades
open CRM

/-- The ten unconditionally-normalized property columns are always
present in the payload written by the insert branch. -/
theorem propInsertCols_hasAllNorm (data : Record) (k : String)
    (hk : k ∈ propStrKeys ∨ k = "precio" ∨ k = "metros" ∨ k = "habitaciones") :
    hasKey (propInsertCols data) k = true := by
  have hcore : hasKey (propPayloadCore data) k = true := by
    simp only [propPayloadCore]
    rcases hk with hk | hk | hk | hk
    · apply hasKey_setV_mono
      apply hasKey_setV_mono
      apply hasKey_setV_mono
      exact hasKey_normFold _ _ _ _ (Or.inl hk)
    · subst hk
      apply hasKey_setV_mono
      apply hasKey_setV_mono
      exact hasKey_setV_self _ _ _
    · subst hk
      apply hasKey_setV_mono
      exact hasKey_setV_self _ _ _
    · subst hk
      exact hasKey_setV_self _ _ _
  unfold propInsertCols propPayload
  simp only []
  split
  · exact hasKey_setV_mono _ _ _ _ hcore
  · exact hcore

end Propiedades

namespace CRM

theorem hasKey_normStep (d : Record) (src dst k : String) (hne : dst ≠ k) :
    hasKey (if hasKey d src ∧ ¬ hasKey d dst then setV d dst (getV d src) else d) k
      = hasKey d k := by
  split
  · rw [hasKey_setV]
    simp [hne]
  · rfl

end CRM

namespace Clientes
open CRM

/-- `_normalize_cliente` only ever adds `interes_*` keys, so the presence
of `"id"` is unchanged. -/
theorem hasKey_normalize_id (c : Record) :
    hasKey (normalize_cliente c) "id" = hasKey c "id" := by
  simp only [normalize_cliente]
  rw [hasKey_normStep _ _ _ _ (by decide)]
  rw [hasKey_normStep _ _ _ _ (by decide)]
  rw [hasKey_normStep _ _ _ _ (by decide)]
  rw [hasKey_normStep _ _ _ _ (by decide)]
  rw [hasKey_normStep _ _ _ _ (by decide)]

end Clientes

/-- C10: `clientes.save` on a record with no `id` key and no non-empty
allow-listed field takes the `INSERT INTO clientes DEFAULT VALUES` path:
it succeeds, appends one brand-new row holding exactly the storage
defaults under a freshly generated id, and returns a record containing
only that id. -/
theorem c10_insert_defaults_only (cliente : CRM.Record) (db : Clientes.ClientesDb)
    (hid : CRM.hasKey cliente "id" = false)
    (hpay : Clientes.clienteInsertPayload (Clientes.normalize_cliente cliente) = []) :
    Clientes.save cliente db
      = .ok ([("id", CRM.Val.vint db.nextId)],
             ⟨db.rows ++ [(db.nextId, db.defaults)], db.nextId + 1, db.defaults⟩) := by
  have hid' : CRM.hasKey (Clientes.normalize_cliente cliente) "id" = false := by
    rw [Clientes.hasKey_normalize_id]
    exact hid
  simp only [Clientes.save]
  rw [if_neg (by simp [hid'])]
  rw [if_pos hpay]

/-- C10 witness: the empty record inserts a defaults-only row. -/
theorem c10_insert_defaults_only_witness :
    Clientes.save [] ⟨[(7, [("curp", CRM.Val.vstr "A")])], 8, [("activo", CRM.Val.vbool true)]⟩
      = .ok ([("id", CRM.Val.vint 8)],
             ⟨[(7, [("curp", CRM.Val.vstr "A")]), (8, [("activo", CRM.Val.vbool true)])], 9,
              [("activo", CRM.Val.vbool true)]⟩) :=
  c10_insert_defaults_only [] _ (by decide) (by decide)

/-- C1 counterexample: a 17-character CURP does NOT make `clientes.save`
fail — the save succeeds and writes the 17-character CURP verbatim into a
fresh row. -/
theorem c1_save_accepts_17_char_curp :
    ("XXXXXXXXXXXXXXXXX" : String).data.length = 17 ∧
    Clientes.save [("curp", CRM.Val.vstr "XXXXXXXXXXXXXXXXX")] ⟨[], 1, []⟩
      = .ok ([("id", CRM.Val.vint 1), ("curp", CRM.Val.vstr "XXXXXXXXXXXXXXXXX")],
             ⟨[(1, [("curp", CRM.Val.vstr "XXXXXXXXXXXXXXXXX")])], 2, []⟩) :=
  ⟨by decide, by rfl⟩

/-- C1 (amended): `clientes.save` itself performs no CURP length
validation — it succeeds and writes the CURP verbatim for length 17 and
length 18 alike.  The 18-character rule lives only in the UI form:
`_validar_curp` accepts exactly a blank CURP or one whose stripped length
is 18, and rejects every other length with a validation message. -/
theorem c1_curp_validation_in_ui_only :
    (∀ c : String, ClienteUI.validar_curp c = none
        ↔ (CRM.pyStrip c = "" ∨ (CRM.pyStrip c).data.length = 18))
    ∧ Clientes.save [("curp", CRM.Val.vstr "XXXXXXXXXXXXXXXXX")] ⟨[], 1, []⟩
        = .ok ([("id", CRM.Val.vint 1), ("curp", CRM.Val.vstr "XXXXXXXXXXXXXXXXX")],
               ⟨[(1, [("curp", CRM.Val.vstr "XXXXXXXXXXXXXXXXX")])], 2, []⟩)
    ∧ Clientes.save [("curp", CRM.Val.vstr "XXXXXXXXXXXXXXXXXX")] ⟨[], 1, []⟩
        = .ok ([("id", CRM.Val.vint 1), ("curp", CRM.Val.vstr "XXXXXXXXXXXXXXXXXX")],
               ⟨[(1, [("curp", CRM.Val.vstr "XXXXXXXXXXXXXXXXXX")])], 2, []⟩) := by
  refine ⟨fun c => ?_, by rfl, by rfl⟩
  unfold ClienteUI.validar_curp
  simp only []
  split_ifs with h1 h2
  · simp [h1]
  · simp only [h1, false_or]
    constructor
    · intro hc
      exact absurd hc (by simp)
    · intro hc
      exact absurd hc h2
  · simp only [h1, false_or]
    constructor
    · intro _
      exact Decidable.of_not_not h2
    · intro _
      trivial

/-- C4 counterexample: the propiedades insert does NOT exclude empty
fields — saving a record whose only field is an empty title yields an
insert column set that explicitly writes `titulo` as null (and every
other normalized column, with `precio` forced to 0.0), instead of leaving
those columns to the storage defaults. -/
theorem c4_prop_insert_writes_empty_cols :
    ("titulo", CRM.Val.vnone) ∈ Propiedades.propInsertCols [("titulo", CRM.Val.vstr "")]
    ∧ Propiedades.propInsertCols [("titulo", CRM.Val.vstr "")]
        = [("titulo", CRM.Val.vnone), ("descripcion", CRM.Val.vnone),
           ("estado", CRM.Val.vnone), ("ciudad", CRM.Val.vnone),
           ("zona", CRM.Val.vnone), ("tipo", CRM.Val.vnone),
           ("amenidades", CRM.Val.vnone), ("precio", CRM.Val.vfloat 0),
           ("metros", CRM.Val.vnone), ("habitaciones", CRM.Val.vnone)]
    ∧ ("tipo", CRM.Val.vstr "none") ∈ Propiedades.propInsertCols [("tipo", CRM.Val.vstr "none")] :=
  ⟨by decide, by decide, by decide⟩

/-- C4 (amended): the non-empty filtering holds for the clientes insert —
every column it writes is allow-listed, is not `id`, and has a non-empty
value (empty string / null / the literal text "none" are excluded, so
storage defaults apply to them).  The propiedades insert instead writes
its whole normalized payload: the ten normalized columns (`titulo`,
`descripcion`, `estado`, `ciudad`, `zona`, `tipo`, `amenidades`,
`precio`, `metros`, `habitaciones`) are always present in the inserted
column set — nulls included, `precio` defaulting to 0.0 — and the literal
text "none" is not treated as absent there. -/
theorem c4_insert_nonempty_clientes_only (data dataP : CRM.Record) (p : String × CRM.Val)
    (k : String)
    (hp : p ∈ Clientes.clienteInsertPayload data)
    (hk : k ∈ Propiedades.propStrKeys ∨ k = "precio" ∨ k = "metros" ∨ k = "habitaciones") :
    (p.1 ∈ Clientes.clienteFields ∧ p.1 ≠ "id" ∧ Clientes.is_empty p.2 = false)
    ∧ CRM.hasKey (Propiedades.propInsertCols dataP) k = true :=
  ⟨Clientes.clienteInsertPayload_sound data p hp,
   Propiedades.propInsertCols_hasAllNorm dataP k hk⟩

/-- C4 witness: a concrete non-empty clientes column passes the filter;
the `metros` column is present in a propiedades insert of an empty
record. -/
theorem c4_insert_nonempty_clientes_only_witness :
    ("curp", CRM.Val.vstr "ABCD") ∈
        Clientes.clienteInsertPayload [("curp", CRM.Val.vstr "ABCD")]
    ∧ (("metros" ∈ Propiedades.propStrKeys ∨ "metros" = "precio" ∨ "metros" = "metros"
          ∨ "metros" = "habitaciones"))
    ∧ ((("curp", CRM.Val.vstr "ABCD").1 ∈ Clientes.clienteFields
          ∧ ("curp", CRM.Val.vstr "ABCD").1 ≠ "id"
          ∧ Clientes.is_empty ("curp", CRM.Val.vstr "ABCD").2 = false)
        ∧ CRM.hasKey (Propiedades.propInsertCols []) "metros" = true) :=
  ⟨by decide, by decide,
   c4_insert_nonempty_clientes_only [("curp", CRM.Val.vstr "ABCD")] [] _ _ (by decide) (by decide)⟩

/-- C8: `eliminar_propiedad` soft-deletes — the matching row stays in the
table (same length, retrievable by id) with `activo := false` and every
other field untouched, while non-matching rows are untouched;
`eliminar_cliente` hard-deletes — no row with that id remains, other rows
are untouched.  Both return true exactly when a row with the id existed,
and neither raises for a missing id (they are total, returning false). -/
theorem c8_soft_vs_hard_delete (pid cid : Int) (pdb : List Propiedades.PropRow)
    (cdb : Clientes.ClientesDb) :
    ((Propiedades.eliminar_propiedad pid pdb).1 = true ↔ ∃ r ∈ pdb, r.id = pid)
    ∧ (∀ r ∈ pdb, r.id = pid →
        { r with activo := false } ∈ (Propiedades.eliminar_propiedad pid pdb).2)
    ∧ (∀ r ∈ pdb, r.id ≠ pid → r ∈ (Propiedades.eliminar_propiedad pid pdb).2)
    ∧ ((Propiedades.eliminar_propiedad pid pdb).2).length = pdb.length
    ∧ ((Clientes.eliminar_cliente cid cdb).1 = true ↔ ∃ rr ∈ cdb.rows, rr.1 = cid)
    ∧ (∀ rr ∈ (Clientes.eliminar_cliente cid cdb).2.rows, rr.1 ≠ cid)
    ∧ (∀ rr ∈ cdb.rows, rr.1 ≠ cid → rr ∈ (Clientes.eliminar_cliente cid cdb).2.rows) := by
  refine ⟨?_, ?_, ?_, ?_, ?_, ?_, ?_⟩
  · simp [Propiedades.eliminar_propiedad, List.any_eq_true]
  · intro r hr hid
    simp only [Propiedades.eliminar_propiedad]
    exact List.mem_map.2 ⟨r, hr, by rw [if_pos hid]⟩
  · intro r hr hid
    simp only [Propiedades.eliminar_propiedad]
    exact List.mem_map.2 ⟨r, hr, by rw [if_neg hid]⟩
  · simp [Propiedades.eliminar_propiedad]
  · simp [Clientes.eliminar_cliente, List.any_eq_true]
  · intro rr hrr
    simp only [Clientes.eliminar_cliente] at hrr
    have := List.mem_filter.1 hrr
    simpa using this.2
  · intro rr hrr hid
    simp only [Clientes.eliminar_cliente]
    exact List.mem_filter.2 ⟨hrr, by simpa using hid⟩

/-- C8 witness: a two-row property table and a one-row client table,
deleting existing ids. -/
theorem c8_soft_vs_hard_delete_witness :
    ((Propiedades.eliminar_propiedad 1
        [⟨1, some "Casa", none, 100, none, none, none, some "centro", some "casa", some 2,
          some "alberca", true⟩]).1 = true
      ↔ ∃ r ∈ [(⟨1, some "Casa", none, 100, none, none, none, some "centro", some "casa",
          some 2, some "alberca", true⟩ : Propiedades.PropRow)], r.id = 1) :=
  (c8_soft_vs_hard_delete 1 5
    [⟨1, some "Casa", none, 100, none, none, none, some "centro", some "casa", some 2,
      some "alberca", true⟩]
    ⟨[(5, [("curp", CRM.Val.vstr "A")])], 6, []⟩).1

/-- C2 counterexample: with an ANONYMOUS session (no must-change flag in
sight), `cambiar_password("u", "np")` still succeeds and rewrites the
stored hash of `u` — the call is not gated on the session at all. -/
theorem c2_cambiar_password_ignores_session :
    Auth.cambiar_password (fun p => "h:" ++ p)
        ⟨[⟨1, "u", "HASH", "asesor", "N", "A", true, false, none⟩], [], none, true⟩
        "u" "np"
      = .ok ⟨[⟨1, "u", "h:np", "asesor", "N", "A", true, false, none⟩], [], none, true⟩
    ∧ ("h:np" : String) ≠ "HASH" :=
  ⟨by rfl, by decide⟩

/-- C2 (amended): the by-username `cambiar_password(username, nueva)`
succeeds exactly when a user with that username exists, regardless of the
in-memory session and of the must-change flag.  On success it stores the
hash of the new password for the fetched user's id, clears that user's
stored must-change flag, leaves all other users untouched, and clears the
in-memory flag only when the session's username coincides. -/
theorem c2_cambiar_password_by_existence (hashF : String → String)
    (st : Auth.AuthState) (u np : String) (hdb : st.useDb = true) :
    ((Auth.cambiar_password hashF st u np).isOk
        = st.users.any (fun a => a.username = u))
    ∧ (∀ st', Auth.cambiar_password hashF st u np = .ok st' →
        ∃ a, Auth.fetchByUsername st.users u = some a
          ∧ (∀ b ∈ st'.users, b.id = a.id →
               b.password_hash = hashF np ∧ b.requiere_cambio_password = false)
          ∧ (∀ b ∈ st.users, b.id ≠ a.id → b ∈ st'.users)
          ∧ st'.session = (match st.session with
              | none => none
              | some s => some (if s.username = u
                  then { s with requiere_cambio_password := false } else s))) := by
  constructor
  · unfold Auth.cambiar_password
    rw [if_pos hdb]
    cases hfe : Auth.fetchByUsername st.users u with
    | none =>
      unfold Auth.fetchByUsername at hfe
      rw [List.find?_eq_none] at hfe
      simp only [Except.isOk, Except.toBool]
      symm
      rw [List.any_eq_false]
      intro a ha
      simpa using hfe a ha
    | some a =>
      have hmem := List.mem_of_find?_eq_some hfe
      have hpa := List.find?_some hfe
      simp only [Except.isOk, Except.toBool]
      symm
      rw [List.any_eq_true]
      exact ⟨a, hmem, hpa⟩
  · intro st' hok
    unfold Auth.cambiar_password at hok
    rw [if_pos hdb] at hok
    cases hfe : Auth.fetchByUsername st.users u with
    | none =>
      rw [hfe] at hok
      exact absurd hok (by simp)
    | some a =>
      rw [hfe] at hok
      refine ⟨a, rfl, ?_, ?_, ?_⟩
      · intro b hb hbid
        have hst' : st'.users = Auth.updatePasswordDb st.users a.id (hashF np) false := by
          cases hok
          rfl
        rw [hst'] at hb
        unfold Auth.updatePasswordDb at hb
        rw [List.mem_map] at hb
        obtain ⟨c, _, hc⟩ := hb
        by_cases hcid : c.id = a.id
        · rw [if_pos hcid] at hc
          rw [← hc]
          exact ⟨rfl, rfl⟩
        · rw [if_neg hcid] at hc
          rw [← hc] at hbid
          exact absurd hbid hcid
      · intro b hb hbid
        have hst' : st'.users = Auth.updatePasswordDb st.users a.id (hashF np) false := by
          cases hok
          rfl
        rw [hst']
        unfold Auth.updatePasswordDb
        rw [List.mem_map]
        exact ⟨b, hb, by rw [if_neg hbid]⟩
      · cases hok
        cases st.session with
        | none => rfl
        | some s =>
          by_cases hsu : s.username = u
          · simp [hsu]
          · simp [hsu]

/-- C2 witness: one stored user `"u"`, anonymous session — success is
decided by existence alone. -/
theorem c2_cambiar_password_by_existence_witness :
    (Auth.cambiar_password (fun p => "h:" ++ p)
        ⟨[⟨1, "u", "HASH0", "asesor", "N", "A", true, true, none⟩], [], none, true⟩
        "u" "np").isOk
      = List.any [(⟨1, "u", "HASH0", "asesor", "N", "A", true, true, none⟩ : Auth.Asesor)]
          (fun a => a.username = "u") :=
  (c2_cambiar_password_by_existence (fun p => "h:" ++ p)
    ⟨[⟨1, "u", "HASH0", "asesor", "N", "A", true, true, none⟩], [], none, true⟩
    "u" "np" rfl).1

/-- C5 counterexample: with an anonymous session (`is_admin` is false,
and no admin exists anywhere), calling `resetear_password` with no
`performed_by` succeeds and rewrites the target's hash and must-change
flag — no permission error is raised and the session is never consulted. -/
theorem c5_reset_without_permission_check :
    Auth.resetear_password (fun p => "h:" ++ p)
        ⟨[⟨1, "t", "OLD", "asesor", "", "", true, false, none⟩], [], none, true⟩
        1 "np" none
      = .ok ⟨[⟨1, "t", "h:np", "asesor", "", "", true, true, none⟩], [], none, true⟩
    ∧ Auth.is_admin ⟨[⟨1, "t", "OLD", "asesor", "", "", true, false, none⟩], [], none, true⟩
        = false :=
  ⟨by rfl, by rfl⟩

/-- C5 (amended): `resetear_password` never consults the in-memory
session / `is_admin()`.  A permission check happens only when a
`performed_by` id is supplied: the stored `rol` of that id must be
exactly `"admin"`, otherwise a `PermissionError` is raised and nothing
changes.  When `performed_by` is omitted, or the supplied id has the
admin role, the call succeeds: rows with the target id get the new hash
and `requiere_cambio_password` force-set to true, all other rows are
untouched. -/
theorem c5_reset_permission_via_performed_by (hashF : String → String)
    (st : Auth.AuthState) (aid : Int) (np : String) (pb : Option Int)
    (hdb : st.useDb = true) :
    (pb = none → Auth.resetear_password hashF st aid np pb
        = .ok { st with users := Auth.updatePasswordDb st.users aid (hashF np) true })
    ∧ (∀ pid, pb = some pid →
        ((∃ a, st.users.find? (fun x => x.id = pid) = some a ∧ a.rol = "admin")
          → Auth.resetear_password hashF st aid np pb
              = .ok { st with users := Auth.updatePasswordDb st.users aid (hashF np) true })
        ∧ ((∀ a, st.users.find? (fun x => x.id = pid) = some a → a.rol ≠ "admin")
          → Auth.resetear_password hashF st aid np pb
              = .error (.permissionError "Permisos insuficientes")))
    ∧ (∀ b ∈ Auth.updatePasswordDb st.users aid (hashF np) true, b.id = aid →
        b.password_hash = hashF np ∧ b.requiere_cambio_password = true)
    ∧ (∀ b ∈ st.users, b.id ≠ aid → b ∈ Auth.updatePasswordDb st.users aid (hashF np) true) := by
  refine ⟨?_, ?_, ?_, ?_⟩
  · intro hpb
    subst hpb
    simp [Auth.resetear_password, hdb]
  · intro pid hpb
    subst hpb
    constructor
    · rintro ⟨a, hfa, hrol⟩
      simp [Auth.resetear_password, hdb, hfa, hrol]
    · intro hno
      cases hfa : st.users.find? (fun x => x.id = pid) with
      | none => simp [Auth.resetear_password, hdb, hfa]
      | some a => simp [Auth.resetear_password, hdb, hfa, hno a hfa]
  · intro b hb hbid
    unfold Auth.updatePasswordDb at hb
    rw [List.mem_map] at hb
    obtain ⟨c, _, hc⟩ := hb
    by_cases hcid : c.id = aid
    · rw [if_pos hcid] at hc
      rw [← hc]
      exact ⟨rfl, rfl⟩
    · rw [if_neg hcid] at hc
      rw [← hc] at hbid
      exact absurd hbid hcid
  · intro b hb hbid
    unfold Auth.updatePasswordDb
    rw [List.mem_map]
    exact ⟨b, hb, by rw [if_neg hbid]⟩

/-- C5 witness: `performed_by = none` on a concrete one-user table
succeeds with the hash and flag rewritten. -/
theorem c5_reset_permission_via_performed_by_witness :
    Auth.resetear_password (fun p => "h:" ++ p)
        ⟨[⟨2, "t2", "OLD2", "asesor", "", "", true, false, none⟩], [], none, true⟩
        2 "secret" none
      = .ok ⟨[⟨2, "t2", "h:secret", "asesor", "", "", true, true, none⟩], [], none, true⟩ := by
  have h := (c5_reset_permission_via_performed_by (fun p => "h:" ++ p)
    ⟨[⟨2, "t2", "OLD2", "asesor", "", "", true, false, none⟩], [], none, true⟩
    2 "secret" none rfl).1 rfl
  exact h

namespace Auth
open CRM

/-- The stored hash that `login` will verify a password against for a
given username: the DB row's hash when the DB is in use and the username
exists there, otherwise the JSON-store entry's hash. -/
def resolvedHash (st : AuthState) (username : String) : Option String :=
  if st.useDb then
    match fetchByUsername st.users username with
    | some a => some a.password_hash
    | none => (st.store.find? (fun p => p.1 = username)).map (fun p => p.2.password_hash)
  else (st.store.find? (fun p => p.1 = username)).map (fun p => p.2.password_hash)

end Auth

/-- C9: whenever the stored hash for a username does not verify the
supplied password (including the case of an unknown username), `login`
returns `(False, null profile, non-null error message)` and the whole
auth state — in particular the in-memory session slot — is exactly as it
was before the call. -/
theorem c9_failed_login_leaves_session (verify : String → String → Bool) (now : Int)
    (st : Auth.AuthState) (username password : String)
    (h : ∀ hs, Auth.resolvedHash st username = some hs → verify password hs = false) :
    ((Auth.login verify now st username password).1.exito = false)
    ∧ ((Auth.login verify now st username password).1.usuario = none)
    ∧ ((Auth.login verify now st username password).1.mensaje.isSome = true)
    ∧ ((Auth.login verify now st username password).2 = st) := by
  unfold Auth.login
  cases hdb : st.useDb with
  | false =>
    cases hfs : st.store.find? (fun p => p.1 = username) with
    | none => simp [hdb, hfs]
    | some pu =>
      have hv : verify password pu.2.password_hash = false :=
        h _ (by simp [Auth.resolvedHash, hdb, hfs])
      simp [hdb, hfs, hv]
  | true =>
    cases hfe : Auth.fetchByUsername st.users username with
    | some a =>
      cases hact : a.activo with
      | false => simp [hdb, hfe, hact]
      | true =>
        have hv : verify password a.password_hash = false :=
          h _ (by simp [Auth.resolvedHash, hdb, hfe])
        simp [hdb, hfe, hact, hv]
    | none =>
      cases hfs : st.store.find? (fun p => p.1 = username) with
      | none => simp [hdb, hfe, hfs]
      | some pu =>
        have hv : verify password pu.2.password_hash = false :=
          h _ (by simp [Auth.resolvedHash, hdb, hfe, hfs])
        simp [hdb, hfe, hfs, hv]

/-- C9 witness: a wrong password against a concrete one-user DB state
fails with a message and leaves the state untouched. -/
theorem c9_failed_login_leaves_session_witness :
    ((Auth.login (fun p hsh => hsh = "H:" ++ p) 0
        ⟨[⟨1, "u", "H:pw", "asesor", "", "", true, false, none⟩], [], none, true⟩
        "u" "wrong").1.exito = false)
    ∧ ((Auth.login (fun p hsh => hsh = "H:" ++ p) 0
        ⟨[⟨1, "u", "H:pw", "asesor", "", "", true, false, none⟩], [], none, true⟩
        "u" "wrong").1.usuario = none)
    ∧ ((Auth.login (fun p hsh => hsh = "H:" ++ p) 0
        ⟨[⟨1, "u", "H:pw", "asesor", "", "", true, false, none⟩], [], none, true⟩
        "u" "wrong").1.mensaje.isSome = true)
    ∧ ((Auth.login (fun p hsh => hsh = "H:" ++ p) 0
        ⟨[⟨1, "u", "H:pw", "asesor", "", "", true, false, none⟩], [], none, true⟩
        "u" "wrong").2
      = ⟨[⟨1, "u", "H:pw", "asesor", "", "", true, false, none⟩], [], none, true⟩) := by
  apply c9_failed_login_leaves_session
  intro hs hhs
  have hs' : hs = "H:pw" := by
    have := hhs
    simp [Auth.resolvedHash, Auth.fetchByUsername] at this
    exact this.symm
  subst hs'
  decide

/-- C3 counterexample: one stored property having amenity `alberca` but
not `gimnasio`; with `amenities=[alberca, gimnasio]` the JSON backend
excludes it, while the SQL backend — whose query never mentions
amenities — returns it: the two backends disagree on the same filter. -/
theorem c3_backends_disagree_on_amenities :
    ApiRepo.list_properties_json
        [{ id := 1, zona := some (CRM.Val.vstr "centro"), tipo := some (CRM.Val.vstr "casa"),
           precio := some (CRM.Val.vint 100), habitaciones := some (CRM.Val.vint 2),
           caracDict := some [("alberca", CRM.Val.vbool true)] }]
        none none none none none ["alberca", "gimnasio"] = []
    ∧ ApiRepo.list_properties_sql
        [⟨1, some "Casa", none, 100, none, none, none, some "centro", some "casa", some 2,
          some "alberca", true⟩]
        none none none none none ["alberca", "gimnasio"]
      = [⟨1, some "Casa", none, 100, none, none, none, some "centro", some "casa", some 2,
          some "alberca", true⟩] :=
  ⟨by rfl, by rfl⟩

/-- C3 (amended): the amenity filter is conjunctive under the JSON
backend — every property returned carries ALL requested amenities as
truthy `caracteristicas` keys, so one lacking any requested amenity is
excluded.  The SQL backend, however, ignores the `amenities` argument
entirely (its query mentions only zona/tipo/precio/habitaciones), so the
two backends agree on the amenity semantics only when no amenities filter
is supplied. -/
theorem c3_amenities_conjunctive_json_sql_ignores
    (store : List ApiRepo.Item) (db : List Propiedades.PropRow)
    (zone : Option String) (pm px : Option Rat) (tipo : Option String)
    (bd : Option Int) (amenities am1 am2 : List String)
    (i : ApiRepo.Item) (a : String)
    (hi : i ∈ ApiRepo.list_properties_json store zone pm px tipo bd amenities)
    (ha : a ∈ amenities) :
    a ∈ ApiRepo.itemAmenities i
    ∧ ApiRepo.list_properties_sql db zone pm px tipo bd am1
        = ApiRepo.list_properties_sql db zone pm px tipo bd am2 := by
  constructor
  · unfold ApiRepo.list_properties_json ApiRepo.filter_items at hi
    rw [List.mem_filter] at hi
    have hm := hi.2
    unfold ApiRepo.itemMatch at hm
    simp only [Bool.and_eq_true] at hm
    have hall := hm.2
    rw [List.all_eq_true] at hall
    simpa using hall a ha
  · rfl

/-- C3 witness: a property that has both requested amenities passes the
JSON filter, and the SQL result is amenity-independent on a concrete
table. -/
theorem c3_amenities_conjunctive_json_sql_ignores_witness :
    "alberca" ∈ ApiRepo.itemAmenities
        { id := 2, zona := some (CRM.Val.vstr "sur"), tipo := some (CRM.Val.vstr "depa"),
          precio := some (CRM.Val.vint 50), habitaciones := some (CRM.Val.vint 1),
          caracDict := some [("alberca", CRM.Val.vbool true), ("gimnasio", CRM.Val.vbool true)] }
    ∧ ApiRepo.list_properties_sql
        [⟨2, some "Depa", none, 50, none, none, none, some "sur", some "depa", some 1,
          none, true⟩]
        none none none none none ["alberca"]
      = ApiRepo.list_properties_sql
        [⟨2, some "Depa", none, 50, none, none, none, some "sur", some "depa", some 1,
          none, true⟩]
        none none none none none [] :=
  c3_amenities_conjunctive_json_sql_ignores
    [{ id := 2, zona := some (CRM.Val.vstr "sur"), tipo := some (CRM.Val.vstr "depa"),
       precio := some (CRM.Val.vint 50), habitaciones := some (CRM.Val.vint 1),
       caracDict := some [("alberca", CRM.Val.vbool true), ("gimnasio", CRM.Val.vbool true)] }]
    [⟨2, some "Depa", none, 50, none, none, none, some "sur", some "depa", some 1, none, true⟩]
    none none none none none ["alberca", "gimnasio"] ["alberca"] []
    _ "alberca" (by decide) (by decide)

namespace Paging

/-- Joining the first `k` pages of size `P` reassembles the list once
`k * P` covers its length. -/
theorem chunksJoin {α : Type} (P : Nat) (_hP : 0 < P) :
    ∀ (k : Nat) (l : List α), l.length ≤ k * P →
      ((List.range k).map (fun i => (l.drop (i * P)).take P)).flatten = l := by
  intro k
  induction k with
  | zero =>
    intro l hl
    rw [Nat.zero_mul] at hl
    have : l = [] := List.eq_nil_of_length_eq_zero (Nat.le_zero.1 hl)
    simp [this]
  | succ k ih =>
    intro l hl
    rw [List.range_succ_eq_map, List.map_cons, List.flatten_cons, List.map_map]
    have hcomp : ((fun i => (l.drop (i * P)).take P) ∘ Nat.succ)
        = fun i => ((l.drop P).drop (i * P)).take P := by
      funext i
      simp only [Function.comp]
      rw [List.drop_drop]
      congr 2
      rw [Nat.succ_mul]
      omega
    rw [hcomp]
    rw [ih (l.drop P) (by rw [List.length_drop]; rw [Nat.succ_mul] at hl; omega)]
    rw [Nat.zero_mul, List.drop_zero]
    exact List.take_append_drop P l

/-- `n ≤ ⌈n / P⌉ * P` for the rounding-up page count. -/
theorem le_pages_mul (n P : Nat) (hP : 0 < P) : n ≤ ((n + P - 1) / P) * P := by
  rcases Nat.eq_zero_or_pos n with hn | hn
  · simp [hn]
  · have hdiv : (n + P - 1) / P = (n - 1) / P + 1 := by
      have he : n + P - 1 = (n - 1) + P := by omega
      rw [he, Nat.add_div_right _ hP]
    rw [hdiv]
    obtain ⟨m, hm⟩ : ∃ m, n = m + 1 := ⟨n - 1, by omega⟩
    subst hm
    simp only [Nat.add_sub_cancel]
    have h1 := Nat.div_add_mod m P
    have h2 := Nat.mod_lt m hP
    have h3 : (m / P + 1) * P = P * (m / P) + P := by ring
    rw [h3]
    linarith

/-- In a duplicate-free list, a `take`-prefix and a far-enough `drop` are
disjoint. -/
theorem take_drop_disjoint {α : Type} (m : List α) (hm : m.Nodup) (a b : Nat) (hab : a ≤ b)
    (x : α) (hx1 : x ∈ m.take a) (hx2 : x ∈ m.drop b) : False := by
  have hsplit : m.take a ++ m.drop a = m := List.take_append_drop a m
  have hnd : (m.take a ++ m.drop a).Nodup := by
    rw [hsplit]
    exact hm
  rw [List.nodup_append] at hnd
  have hx2' : x ∈ m.drop a := by
    have hd : m.drop b = (m.drop a).drop (b - a) := by
      rw [List.drop_drop]
      congr 1
      omega
    rw [hd] at hx2
    exact List.drop_subset _ _ hx2
  exact hnd.2.2 hx1 hx2'

/-- Distinct pages of a duplicate-free list are disjoint. -/
theorem chunk_disjoint {α : Type} (l : List α) (hl : l.Nodup) (P : Nat) (_hP : 0 < P)
    (i j : Nat) (hij : i ≠ j) (x : α)
    (hx1 : x ∈ (l.drop (i * P)).take P) (hx2 : x ∈ (l.drop (j * P)).take P) : False := by
  wlog hlt : i < j generalizing i j
  · exact this j i hij.symm hx2 hx1 (by omega)
  have hm : (l.drop (i * P)).Nodup := (List.drop_sublist _ _).nodup hl
  apply take_drop_disjoint (l.drop (i * P)) hm P ((j - i) * P) ?_ x hx1 ?_
  · have h1 : 1 ≤ j - i := by omega
    calc P = 1 * P := by ring
    _ ≤ (j - i) * P := Nat.mul_le_mul_right _ h1
  · have hd : (l.drop (i * P)).drop ((j - i) * P) = l.drop (j * P) := by
      rw [List.drop_drop]
      rw [← Nat.add_mul]
      have he : i + (j - i) = j := by omega
      rw [he]
    rw [hd]
    exact List.take_subset _ _ hx2

end Paging

namespace ClientesQ

theorem queryClientes_perm (db : List ClienteRow) (texto : Option String)
    (asesorId : Option Int) (f : Filtros) :
    (queryClientes db texto asesorId f).Perm (db.filter (clienteMatch texto asesorId f)) :=
  List.perm_insertionSort _ _

/-- `COUNT(*)` equals the length of the full ordered result set. -/
theorem contar_eq_query_length (db : List ClienteRow) (texto : Option String)
    (asesorId : Option Int) (f : Filtros) :
    contar_clientes db texto asesorId f
      = ((queryClientes db texto asesorId f).length : Int) := by
  unfold contar_clientes
  exact_mod_cast (queryClientes_perm db texto asesorId f).length_eq.symm

/-- Page `i+1` of size `P > 0` is the `i`-th chunk of the ordered result
set. -/
theorem pageSlice_eq (l : List ClienteRow) (i : Nat) (P : Int) (hP : 0 < P) :
    pageSlice l ((i : Int) + 1) P = (l.drop (i * P.toNat)).take P.toNat := by
  unfold pageSlice
  have h1 : ((i : Int) + 1 - 1) * P = (i : Int) * P := by ring
  rw [h1]
  have h2 : max 0 ((i : Int) * P) = (i : Int) * P :=
    max_eq_right (by positivity)
  rw [h2]
  have h3 : ((i : Int) * P).toNat = i * P.toNat := by
    rcases Int.eq_ofNat_of_zero_le hP.le with ⟨p, hp⟩
    subst hp
    rw [← Nat.cast_mul, Int.toNat_natCast, Int.toNat_natCast]
  rw [h3]

/-- The pages `1 .. ⌈n/P⌉` of the ordered result set, concatenated in
order, are exactly the ordered result set. -/
theorem pages_cover (db : List ClienteRow) (texto : Option String)
    (asesorId : Option Int) (f : Filtros) (P : Int) (hP : 0 < P) :
    ((List.range (((queryClientes db texto asesorId f).length + P.toNat - 1) / P.toNat)).map
        (fun (i : Nat) => pageSlice (queryClientes db texto asesorId f) ((i : Int) + 1) P)).flatten
      = queryClientes db texto asesorId f := by
  have hPn : 0 < P.toNat := by omega
  have hmap : (List.range (((queryClientes db texto asesorId f).length + P.toNat - 1) / P.toNat)).map
        (fun (i : Nat) => pageSlice (queryClientes db texto asesorId f) ((i : Int) + 1) P)
      = (List.range (((queryClientes db texto asesorId f).length + P.toNat - 1) / P.toNat)).map
        (fun (i : Nat) => ((queryClientes db texto asesorId f).drop (i * P.toNat)).take P.toNat) := by
    apply List.map_congr_left
    intro i _
    exact pageSlice_eq _ i P hP
  rw [hmap]
  exact Paging.chunksJoin P.toNat hPn _ _
    (Paging.le_pages_mul (queryClientes db texto asesorId f).length P.toNat hPn)

/-- Two distinct pages of the same query never share a row (duplicate-free
table). -/
theorem pages_disjoint (db : List ClienteRow) (texto : Option String)
    (asesorId : Option Int) (f : Filtros) (P : Int) (hP : 0 < P) (hnd : db.Nodup)
    (i j : Nat) (hij : i ≠ j) (x : ClienteRow)
    (hx1 : x ∈ pageSlice (queryClientes db texto asesorId f) ((i : Int) + 1) P)
    (hx2 : x ∈ pageSlice (queryClientes db texto asesorId f) ((j : Int) + 1) P) : False := by
  have hq : (queryClientes db texto asesorId f).Nodup :=
    (queryClientes_perm db texto asesorId f).nodup_iff.2 (hnd.filter _)
  rw [pageSlice_eq _ _ _ hP] at hx1 hx2
  exact Paging.chunk_disjoint _ hq P.toNat (by omega) i j hij x hx1 hx2

end ClientesQ

/-- C6: pagination/count consistency for the clientes repository.  For
any owner filter, filter set, page size `P > 0` and duplicate-free
table: the page lengths of `listar_clientes` over pages `1..⌈n/P⌉` sum
to `contar_clientes` with the same (absent) search text, the
concatenation of those pages is exactly the full ordered result set, and
no row appears on two distinct pages; the same three facts hold for
`buscar_clientes texto` against `contar_clientes (some texto)` — count
applies exactly the predicate that list/search paginate over. -/
theorem c6_pagination_count_consistency
    (db : List ClientesQ.ClienteRow) (asesorId : Option Int) (f : ClientesQ.Filtros)
    (texto : String) (P : Int) (hP : 0 < P) (hnd : db.Nodup) :
    ((((List.range (((ClientesQ.queryClientes db none asesorId f).length + P.toNat - 1) / P.toNat)).map
        (fun (i : Nat) => (ClientesQ.listar_clientes db ((i : Int) + 1) P asesorId f).length)).sum : Int)
      = ClientesQ.contar_clientes db none asesorId f)
    ∧ (((List.range (((ClientesQ.queryClientes db none asesorId f).length + P.toNat - 1) / P.toNat)).map
        (fun (i : Nat) => ClientesQ.listar_clientes db ((i : Int) + 1) P asesorId f)).flatten
      = ClientesQ.queryClientes db none asesorId f)
    ∧ (∀ i j : Nat, i ≠ j → ∀ x, x ∈ ClientesQ.listar_clientes db ((i : Int) + 1) P asesorId f →
        x ∉ ClientesQ.listar_clientes db ((j : Int) + 1) P asesorId f)
    ∧ ((((List.range (((ClientesQ.queryClientes db (some texto) asesorId f).length + P.toNat - 1) / P.toNat)).map
        (fun (i : Nat) => (ClientesQ.buscar_clientes db texto ((i : Int) + 1) P asesorId f).length)).sum : Int)
      = ClientesQ.contar_clientes db (some texto) asesorId f)
    ∧ (((List.range (((ClientesQ.queryClientes db (some texto) asesorId f).length + P.toNat - 1) / P.toNat)).map
        (fun (i : Nat) => ClientesQ.buscar_clientes db texto ((i : Int) + 1) P asesorId f)).flatten
      = ClientesQ.queryClientes db (some texto) asesorId f)
    ∧ (∀ i j : Nat, i ≠ j → ∀ x,
        x ∈ ClientesQ.buscar_clientes db texto ((i : Int) + 1) P asesorId f →
        x ∉ ClientesQ.buscar_clientes db texto ((j : Int) + 1) P asesorId f) := by
  have hcov0 := ClientesQ.pages_cover db none asesorId f P hP
  have hcovT := ClientesQ.pages_cover db (some texto) asesorId f P hP
  refine ⟨?_, hcov0, ?_, ?_, hcovT, ?_⟩
  · rw [ClientesQ.contar_eq_query_length]
    have hlen : ((List.range (((ClientesQ.queryClientes db none asesorId f).length + P.toNat - 1) / P.toNat)).map
        (fun (i : Nat) => (ClientesQ.listar_clientes db ((i : Int) + 1) P asesorId f).length)).sum
        = (((List.range (((ClientesQ.queryClientes db none asesorId f).length + P.toNat - 1) / P.toNat)).map
            (fun (i : Nat) => ClientesQ.listar_clientes db ((i : Int) + 1) P asesorId f)).flatten).length := by
      rw [List.length_flatten, List.map_map]
      rfl
    rw [hlen]
    exact_mod_cast congrArg List.length hcov0
  · intro i j hij x hx1 hx2
    exact ClientesQ.pages_disjoint db none asesorId f P hP hnd i j hij x hx1 hx2
  · rw [ClientesQ.contar_eq_query_length]
    have hlen : ((List.range (((ClientesQ.queryClientes db (some texto) asesorId f).length + P.toNat - 1) / P.toNat)).map
        (fun (i : Nat) => (ClientesQ.buscar_clientes db texto ((i : Int) + 1) P asesorId f).length)).sum
        = (((List.range (((ClientesQ.queryClientes db (some texto) asesorId f).length + P.toNat - 1) / P.toNat)).map
            (fun (i : Nat) => ClientesQ.buscar_clientes db texto ((i : Int) + 1) P asesorId f)).flatten).length := by
      rw [List.length_flatten, List.map_map]
      rfl
    rw [hlen]
    exact_mod_cast congrArg List.length hcovT
  · intro i j hij x hx1 hx2
    exact ClientesQ.pages_disjoint db (some texto) asesorId f P hP hnd i j hij x hx1 hx2

/-- C6 witness: two concrete rows, page size 1 — the page-length sum
equals the count. -/
theorem c6_pagination_count_consistency_witness :
    ((((List.range (((ClientesQ.queryClientes
          [⟨1, 100, none, none, none, none, none, none, none, some "Ana", none, none, none, none, none, none⟩,
           ⟨2, 90, none, none, none, none, none, none, none, some "Beto", none, none, none, none, none, none⟩]
          none none ⟨none, none, none, none, none, none⟩).length + (1 : Int).toNat - 1) / (1 : Int).toNat)).map
        (fun (i : Nat) => (ClientesQ.listar_clientes
          [⟨1, 100, none, none, none, none, none, none, none, some "Ana", none, none, none, none, none, none⟩,
           ⟨2, 90, none, none, none, none, none, none, none, some "Beto", none, none, none, none, none, none⟩]
          ((i : Int) + 1) 1 none ⟨none, none, none, none, none, none⟩).length)).sum : Int)
      = ClientesQ.contar_clientes
          [⟨1, 100, none, none, none, none, none, none, none, some "Ana", none, none, none, none, none, none⟩,
           ⟨2, 90, none, none, none, none, none, none, none, some "Beto", none, none, none, none, none, none⟩]
          none none ⟨none, none, none, none, none, none⟩) :=
  (c6_pagination_count_consistency
    [⟨1, 100, none, none, none, none, none, none, none, some "Ana", none, none, none, none, none, none⟩,
     ⟨2, 90, none, none, none, none, none, none, none, some "Beto", none, none, none, none, none, none⟩]
    none ⟨none, none, none, none, none, none⟩ "an" 1 (by decide) (by decide)).1

/-- C7: search refines the plain filter — every row returned by
`buscar_clientes` (any page) satisfies the same non-text predicate
(`clienteMatch` with no text), and therefore appears on some page of
`listar_clientes` with the same owner filter and filter set. -/
theorem c7_search_refines_list
    (db : List ClientesQ.ClienteRow) (texto : String) (page P : Int)
    (asesorId : Option Int) (f : ClientesQ.Filtros) (x : ClientesQ.ClienteRow)
    (hP : 0 < P)
    (hx : x ∈ ClientesQ.buscar_clientes db texto page P asesorId f) :
    ClientesQ.clienteMatch none asesorId f x = true
    ∧ ∃ p : Int, 1 ≤ p ∧ x ∈ ClientesQ.listar_clientes db p P asesorId f := by
  have hxq : x ∈ ClientesQ.queryClientes db (some texto) asesorId f := by
    unfold ClientesQ.buscar_clientes ClientesQ.pageSlice at hx
    exact List.drop_subset _ _ (List.take_subset _ _ hx)
  have hxf := (ClientesQ.queryClientes_perm db (some texto) asesorId f).subset hxq
  rw [List.mem_filter] at hxf
  obtain ⟨hxdb, hmatch⟩ := hxf
  have hmatch0 : ClientesQ.clienteMatch none asesorId f x = true := by
    unfold ClientesQ.clienteMatch at hmatch ⊢
    simp only [Bool.and_eq_true] at hmatch ⊢
    exact ⟨hmatch.1, rfl⟩
  refine ⟨hmatch0, ?_⟩
  have hxq0 : x ∈ ClientesQ.queryClientes db none asesorId f := by
    apply (ClientesQ.queryClientes_perm db none asesorId f).symm.subset
    rw [List.mem_filter]
    exact ⟨hxdb, hmatch0⟩
  have hcov := ClientesQ.pages_cover db none asesorId f P hP
  rw [← hcov] at hxq0
  rw [List.mem_flatten] at hxq0
  obtain ⟨L, hL, hxL⟩ := hxq0
  rw [List.mem_map] at hL
  obtain ⟨i, _, hiL⟩ := hL
  refine ⟨(i : Int) + 1, by omega, ?_⟩
  rw [← hiL] at hxL
  exact hxL

/-- C7 witness: a concrete search hit of `buscar("an")` satisfies the
text-free predicate and sits on some `listar` page. -/
theorem c7_search_refines_list_witness :
    ClientesQ.clienteMatch none none ⟨none, none, none, none, none, none⟩
        ⟨1, 100, none, none, none, none, none, none, none, some "Ana", none, none, none, none, none, none⟩
      = true
    ∧ ∃ p : Int, 1 ≤ p ∧
        (⟨1, 100, none, none, none, none, none, none, none, some "Ana", none, none, none, none, none, none⟩ : ClientesQ.ClienteRow)
          ∈ ClientesQ.listar_clientes
              [⟨1, 100, none, none, none, none, none, none, none, some "Ana", none, none, none, none, none, none⟩]
              p 5 none ⟨none, none, none, none, none, none⟩ :=
  c7_search_refines_list
    [⟨1, 100, none, none, none, none, none, none, none, some "Ana", none, none, none, none, none, none⟩]
    "an" 1 5 none ⟨none, none, none, none, none, none⟩
    ⟨1, 100, none, none, none, none, none, none, none, some "Ana", none, none, none, none, none, none⟩
    (by decide) (by decide)
